import Mathlib

/-!
Verification of the `infra` interactive CLI (csrwng/infra).

A shallow embedding of the Python sources `config.py`, `utils.py`,
`infra.py` and `cluster.py`.  Pure string/command composition is embedded
as Lean functions; the effectful control flow (prompts, filesystem,
subprocesses, HTTP, `sys.exit`) is embedded by passing the environment
(prompt results, file presence, command exit codes, HTTP responses)
explicitly and returning the observable outcome (composed commands,
executed subprocesses, files written, process exit status).
-/

namespace Infra

/-- Two-component `os.path.join` as used throughout the sources (no
absolute second component, no trailing separators). -/
def pathJoin (a b : String) : String := a ++ "/" ++ b

/-- The configuration mapping loaded from `config.json` (`config.py`,
`GENERIC_DEFAULTS` keys).  `CFG.get("hypershift_path", "hypershift")`
supplies a default only when the key is absent, so that key is an
`Option`; the other keys the claims touch are read with plain
`CFG.get(k)` and used as strings. -/
structure Config where
  infra_dir : String
  hypershift_path : Option String
  aws_creds_path : String
  pull_secret_path : String
  oidc_s3_bucket_name : String
  oidc_s3_region : String
  external_dns_domain : String
  hypershift_repo_dir : String
  /-- The `local_cpo_image_prefix` configuration key. -/
  local_cpo_image_pfx : String
  deriving Repr, DecidableEq

/-- The expression `CFG.get("hypershift_path", "hypershift")`
(infra.py line 66, cluster.py line 177). -/
def Config.hypershiftCmd (cfg : Config) : String :=
  cfg.hypershift_path.getD "hypershift"

/-! ## utils.py -/

/-- Result of an `inquirer.prompt` call: either the answers, or `cancelled`
(covering both `inquirer.prompt` returning `None` and a
`KeyboardInterrupt` raised during the prompt). -/
inductive PromptResult (α : Type) where
  | answered (a : α)
  | cancelled
  deriving Repr, DecidableEq

/-- The function `utils.safe_prompt`: wraps `inquirer.prompt`; if the user cancels
(`None` answers or `KeyboardInterrupt`) the process exits with status 1
(`sys.exit(1)`), otherwise the answers are returned.  The `Except Nat`
error carries the process exit status. -/
def safe_prompt {α : Type} : PromptResult α → Except Nat α
  | .answered a => .ok a
  | .cancelled => .error 1

/-! ## config.py: configuration directory resolution -/

/-- The environment `_os_config_dir` consults. -/
structure OsEnv where
  /-- Value of `pathlib.Path.home()`. -/
  homeDir : String
  /-- Value of `os.path.exists(<home>/.infra)`. -/
  legacyExists : Bool
  /-- Value of `platform.system()`. -/
  platformSys : String
  /-- Value of `os.getenv("XDG_CONFIG_HOME")`. -/
  xdgConfigHome : Option String
  /-- Value of `shutil.which("systemd-path")`. -/
  systemdPathLocation : Option String
  /-- Stripped stdout of `systemd-path user-configuration`. -/
  systemdUserConfigDir : String
  /-- Value of `os.getenv("AppData")`. -/
  appData : Option String
  deriving Repr, DecidableEq

/-- Outcome of `_os_config_dir`: a resolved directory, or process
termination with `sys.exit(1)`. -/
inductive ConfigDirResult where
  | dir (path : String)
  | exit1
  deriving Repr, DecidableEq

/-- The function `config._os_config_dir` (config.py lines 35-94).  The legacy
`~/.infra` directory wins when it exists; otherwise the platform is
matched: on Linux the `XDG_CONFIG_HOME` value is used directly when set,
else `systemd-path user-configuration` with an `infra` component is
used when the helper exists, else the legacy path; Darwin and Windows
use fixed locations; anything else leaves the directory undetermined,
which terminates the process. -/
def os_config_dir (env : OsEnv) : ConfigDirResult :=
  let legacy_config_dir := pathJoin env.homeDir ".infra"
  if env.legacyExists then .dir legacy_config_dir
  else
    match env.platformSys with
    | "Linux" =>
      match env.xdgConfigHome with
      | some x => .dir x
      | none =>
        match env.systemdPathLocation with
        | none => .dir legacy_config_dir
        | some _ => .dir (pathJoin env.systemdUserConfigDir "infra")
    | "Darwin" =>
      .dir (pathJoin (pathJoin (pathJoin env.homeDir "Library") "Application Support") "Infra")
    | "Windows" =>
      match env.appData with
      | some a => .dir (pathJoin a "infra")
      | none => .exit1
    | _ => .exit1

/-! ## cluster.py: release-image resolution for the ci/nightly channels -/

/-- Observable outcome of the HTTP GET in `get_release_image`
(cluster.py lines 55-64): either the request fails (connection error,
non-2xx status via `raise_for_status`, or an undecodable body — all
surfaced as a `requests.RequestException`), or it yields a parsed JSON
object whose `pullSpec` field may be present or absent
(`data.get("pullSpec", default)`). -/
inductive HttpResponse where
  | failure
  | jsonOk (pullSpec : Option String)
  deriving Repr, DecidableEq

/-- The `ci`/`nightly` branch of `cluster.get_release_image`
(cluster.py lines 55-64): on a request failure the process exits with
status 1; on success the `pullSpec` field is returned, defaulting to a
placeholder error string when the field is absent.  The `Except Nat`
error carries the process exit status. -/
def get_release_image_ci_nightly (major_version version_type : String)
    (resp : HttpResponse) : Except Nat String :=
  match resp with
  | .failure => .error 1
  | .jsonOk pullSpec =>
    .ok (pullSpec.getD
      ("Error: No release image found for " ++ major_version ++ " " ++ version_type))

/-! ## Parsed artifact data -/

/-- Fields looked up in a parsed `infra.json`
(the `data.get("infraID")` lookups in infra.py lines 138-140 and cluster.py
lines 225-237). -/
structure InfraData where
  infraID : String
  Name : String
  region : String
  baseDomain : String
  deriving Repr, DecidableEq

/-- Fields looked up in a parsed `iam.json` (infra.py line 153). -/
structure IamData where
  infraID : String
  region : String
  deriving Repr, DecidableEq

/-! ## cluster.py: render_cluster_yaml -/

/-- An external subprocess issued by `render_cluster_yaml`: the
`git rev-parse` helper run for the local-CPO image, or a shell command
(`subprocess.run(command, shell=True)`). -/
inductive Exec where
  | git (repoDir : String)
  | shell (cmd : String)
  deriving Repr, DecidableEq

/-- Outcome of `render_cluster_yaml`. `missingArtifact` is the
"cannot open infra.json in infrastructure directory" early return;
`unboundLocalError` is the `UnboundLocalError` raised when the command
f-string references `custom_domain_flag` and no branch assigned it;
`rendered` carries the composed shell command. -/
inductive RenderOutcome where
  | missingArtifact
  | unboundLocalError
  | rendered (cmd : String)
  deriving Repr, DecidableEq

/-- What a call to `render_cluster_yaml` did: its outcome, the external
subprocesses it executed in order, and whether the render command (whose
shell redirection creates `cluster.yaml`) was run. -/
structure RenderResult where
  outcome : RenderOutcome
  execs : List Exec
  wroteClusterYaml : Bool
  deriving Repr, DecidableEq

/-- The `custom_domain_flag` local of `render_cluster_yaml`
(cluster.py lines 203-207): assigned only when the access mode is
`Private` or `PublicAndPrivate` (to the external-DNS flag when a domain
is configured and truthy, else to the empty string); in every other
branch the local is left unassigned (`none`). -/
def customDomainFlag (cfg : Config) (access_mode : String) : Option String :=
  if access_mode = "Private" ∨ access_mode = "PublicAndPrivate" then
    if cfg.external_dns_domain ≠ "" then
      some ("--external-dns-domain " ++ cfg.external_dns_domain)
    else
      some ""
  else
    none

/-- The `cpo_image_flag` local of `render_cluster_yaml`
(cluster.py lines 182-201) together with the subprocesses run to compute
it.  `repoIsDir` is `os.path.isdir(repo_dir)`; `gitResult` is the
outcome of `git -C <repo> rev-parse --short=9 HEAD` (`some` stripped
stdout on exit 0, `none` on a `CalledProcessError`, which is caught and
degrades to no flag). -/
def cpoImageFlag (cfg : Config) (local_cpo : Bool) (repoIsDir : Bool)
    (gitResult : Option String) : String × List Exec :=
  if local_cpo then
    if cfg.hypershift_repo_dir ≠ "" ∧ cfg.local_cpo_image_pfx ≠ "" ∧ repoIsDir then
      match gitResult with
      | some short_hash =>
        if short_hash ≠ "" then
          ("--control-plane-operator-image " ++ cfg.local_cpo_image_pfx ++ ":" ++ short_hash,
           [.git cfg.hypershift_repo_dir])
        else
          ("", [.git cfg.hypershift_repo_dir])
      | none => ("", [.git cfg.hypershift_repo_dir])
    else
      ("", [])
  else
    ("", [])

/-- The render command f-string of `render_cluster_yaml`
(cluster.py lines 222-244).  Backslash line continuations inside the
f-string contribute no characters, so the interpolated pieces are
joined by single spaces. -/
def renderCommand (cfg : Config) (data : InfraData)
    (infra_out iam_out yaml_path : String)
    (release_image access_mode control_plane infrastructure : String)
    (node_count instance_type : String)
    (custom_domain_flag cpo_image_flag cp_version_flag : String) : String :=
  cfg.hypershiftCmd ++ " create cluster aws --render " ++
  "--aws-creds " ++ cfg.aws_creds_path ++ " " ++
  "--instance-type " ++ instance_type ++ " " ++
  "--region " ++ data.region ++ " " ++
  "--control-plane-availability-policy " ++ control_plane ++ " " ++
  "--infra-availability-policy " ++ infrastructure ++ " " ++
  "--auto-repair " ++
  "--generate-ssh " ++
  "--name " ++ data.Name ++ " " ++
  "--endpoint-access " ++ access_mode ++ " " ++
  "--node-pool-replicas " ++ node_count ++ " " ++
  "--pull-secret " ++ cfg.pull_secret_path ++ " " ++
  "--infra-id " ++ data.infraID ++ " " ++
  "--infra-json " ++ infra_out ++ " " ++
  "--iam-json " ++ iam_out ++ " " ++
  "--base-domain " ++ data.baseDomain ++ " " ++
  custom_domain_flag ++ " " ++
  "--release-image " ++ release_image ++ " " ++
  cpo_image_flag ++ " " ++
  "--annotations hypershift.openshift.io/cleanup-cloud-resources=true " ++
  cp_version_flag ++ " " ++
  "--render-sensitive " ++
  "--render > " ++ yaml_path

/-- The function `cluster.render_cluster_yaml` (cluster.py lines 172-248).
`infraJson` is the parsed contents of `<infra_dir>/<infra>/infra.json`
when that file exists.  Control flow, in source order: compute
`cpo_image_flag` (possibly running git), conditionally assign
`custom_domain_flag`, compute `cp_version_flag`, bail out if
`infra.json` is missing, then evaluate the command f-string — which
raises `UnboundLocalError` if `custom_domain_flag` was never assigned —
and run it through the shell, redirecting into `cluster.yaml`. -/
def render_cluster_yaml (cfg : Config) (infraJson : Option InfraData)
    (repoIsDir : Bool) (gitResult : Option String)
    (infra release_image access_mode control_plane infrastructure cp_version : String)
    (local_cpo : Bool) (node_count instance_type : String) : RenderResult :=
  let infra_path := pathJoin cfg.infra_dir infra
  let yaml_path := pathJoin infra_path "cluster.yaml"
  let infra_out := pathJoin infra_path "infra.json"
  let iam_out := pathJoin infra_path "iam.json"
  let (cpo_image_flag, cpoExecs) := cpoImageFlag cfg local_cpo repoIsDir gitResult
  let custom_domain_flag := customDomainFlag cfg access_mode
  let cp_version_flag :=
    if cp_version = "v2" then "--annotations hypershift.openshift.io/cpo-v2=true" else ""
  match infraJson with
  | none =>
    { outcome := .missingArtifact, execs := cpoExecs, wroteClusterYaml := false }
  | some data =>
    match custom_domain_flag with
    | none =>
      { outcome := .unboundLocalError, execs := cpoExecs, wroteClusterYaml := false }
    | some domFlag =>
      let command := renderCommand cfg data infra_out iam_out yaml_path
        release_image access_mode control_plane infrastructure
        node_count instance_type domFlag cpo_image_flag cp_version_flag
      { outcome := .rendered command,
        execs := cpoExecs ++ [.shell command],
        wroteClusterYaml := true }

/-! ## A small filesystem model

`create_infra` touches the filesystem through `os.path.exists`,
`os.makedirs` and `open(..., "w").write`; this is the state those calls
act on. -/

/-- Filesystem state: the set of directories and the text files with
their contents.  New entries are consed at the front; `read` finds the
most recent write. -/
structure FS where
  dirs : List String
  files : List (String × String)
  deriving Repr, DecidableEq

/-- The check `os.path.exists`: true for a directory or a file at `p`. -/
def FS.pathExists (fs : FS) (p : String) : Bool :=
  fs.dirs.contains p || (fs.files.map Prod.fst).contains p

/-- The call `os.makedirs p`. -/
def FS.mkdir (fs : FS) (p : String) : FS :=
  { fs with dirs := p :: fs.dirs }

/-- The call `open(p, "w")` followed by `file.write(c)`. -/
def FS.write (fs : FS) (p c : String) : FS :=
  { fs with files := (p, c) :: fs.files }

/-- Contents of the file at `p`, if any. -/
def FS.read (fs : FS) (p : String) : Option String :=
  (fs.files.find? (fun e => e.1 = p)).map Prod.snd

/-! ## infra.py: command composition -/

/-- The closed choice set of the "External Traffic" `inquirer.List`
prompt (infra.py lines 47-48). -/
inductive Connectivity where
  | Public
  | Proxy
  | SecureProxy
  | NATGateway
  deriving Repr, DecidableEq

/-- The `connectivity_flag_mapping` dict of `create_infra`
(infra.py lines 73-78), restricted to its domain — the four prompt
choices, which are the only possible keys. -/
def connectivity_flag_mapping : Connectivity → String
  | .Public => "--public-only"
  | .Proxy => "--enable-proxy"
  | .SecureProxy => "--enable-secure-proxy"
  | .NATGateway => ""

/-- Answers collected by the `create_infra` prompt
(infra.py lines 43-51). -/
structure CreateAnswers where
  name : String
  region : String
  base_domain : String
  external_connectivity : Connectivity
  deriving Repr, DecidableEq

/-- The `hypershift create infra aws ...` half of the command f-string of
`create_infra` (infra.py lines 85-92, up to the `&&`).  Inside the
f-string each backslash line continuation contributes nothing and each
continuation line is indented by two spaces, so consecutive pieces are
separated by three spaces. -/
def infra_create_command (cfg : Config) (answers : CreateAnswers)
    (infra_id infra_out : String) : String :=
  cfg.hypershiftCmd ++ " create infra aws " ++
  "  --aws-creds " ++ cfg.aws_creds_path ++ " " ++
  "  --base-domain " ++ answers.base_domain ++ " " ++
  "  --infra-id " ++ infra_id ++ " " ++
  "  --name " ++ answers.name ++ " " ++
  "  --region " ++ answers.region ++ " " ++
  "  " ++ connectivity_flag_mapping answers.external_connectivity ++ " " ++
  "  --output-file " ++ infra_out

/-- The `hypershift create iam aws ...` half of the command f-string of
`create_infra` (infra.py lines 93-102, after the `&&`). -/
def iam_create_command (cfg : Config) (answers : CreateAnswers)
    (infra_id infra_out iam_out : String) : String :=
  cfg.hypershiftCmd ++ " create iam aws " ++
  "  --aws-creds " ++ cfg.aws_creds_path ++ " " ++
  "  --infra-id " ++ infra_id ++ " " ++
  "  --oidc-storage-provider-s3-bucket-name " ++ cfg.oidc_s3_bucket_name ++ " " ++
  "  --oidc-storage-provider-s3-region " ++ cfg.oidc_s3_region ++ " " ++
  "  --region " ++ answers.region ++ " " ++
  "  --local-zone-id $(jq -r \x27.localZoneID\x27 " ++ infra_out ++ ") " ++
  "  --public-zone-id $(jq -r \x27.publicZoneID\x27 " ++ infra_out ++ ") " ++
  "  --private-zone-id $(jq -r \x27.privateZoneID\x27 " ++ infra_out ++ ") " ++
  "  --output-file " ++ iam_out

/-- The complete `command` string built by `create_infra`
(infra.py lines 85-102): the infra-create half, the `&&` connective, and
the iam-create half, all in one shell command line. -/
def create_command (cfg : Config) (answers : CreateAnswers)
    (infra_id infra_out iam_out : String) : String :=
  infra_create_command cfg answers infra_id infra_out ++ " &&   " ++
  iam_create_command cfg answers infra_id infra_out iam_out

/-- The word-level view of `infra_create_command`: the argument words
the shell passes to the infra-create invocation when the interpolated
values contain no whitespace or shell metacharacters.  The empty
connectivity entry for `NAT gateway` contributes no word (the shell
collapses the extra spaces). -/
def infra_create_words (cfg : Config) (answers : CreateAnswers)
    (infra_id infra_out : String) : List String :=
  [cfg.hypershiftCmd, "create", "infra", "aws",
   "--aws-creds", cfg.aws_creds_path,
   "--base-domain", answers.base_domain,
   "--infra-id", infra_id,
   "--name", answers.name,
   "--region", answers.region] ++
  (if connectivity_flag_mapping answers.external_connectivity = "" then []
   else [connectivity_flag_mapping answers.external_connectivity]) ++
  ["--output-file", infra_out]

/-- The `hypershift destroy infra aws ...` f-string of `destroy_infra`
(infra.py lines 138-140): the program name is the literal `hypershift`,
not the configured `hypershift_path`.  Continuation lines are indented
by four spaces, so the joined pieces are separated by five spaces. -/
def destroy_infra_command (cfg : Config) (data : InfraData) : String :=
  "hypershift destroy infra aws --infra-id=" ++ data.infraID ++
  " --name=" ++ data.Name ++ " --region=" ++ data.region ++ " " ++
  "    --aws-creds " ++ cfg.aws_creds_path ++ " " ++
  "    --base-domain=" ++ data.baseDomain

/-- The `hypershift destroy iam aws ...` f-string of `destroy_infra`
(infra.py line 153): again the literal `hypershift`. -/
def destroy_iam_command (cfg : Config) (data : IamData) : String :=
  "hypershift destroy iam aws --infra-id=" ++ data.infraID ++
  " --aws-creds " ++ cfg.aws_creds_path ++ " --region=" ++ data.region

/-! ## Shell execution of composed commands

The function `execute_command` (infra.py lines 17-23) hands the whole
command string to a shell and reports the single exit status of that
shell.  The shell structure of the command built by `create_infra` —
two simple commands joined by one `&&` — is modelled explicitly so that
the short-circuit semantics is visible. -/

/-- A shell command: a simple command (run as-is) or an `a && b`
conjunction. -/
inductive ShellCmd where
  | simple (s : String)
  | andThen (a b : ShellCmd)
  deriving Repr, DecidableEq

/-- Shell execution: `env` gives the exit code of each simple command;
`a && b` runs `b` only when `a` exits 0, reporting the code of `b` then
and the code of `a` otherwise.  Returns the overall exit code and the
simple commands actually run, in order. -/
def execShell (c : ShellCmd) (env : String → Nat) : Nat × List String :=
  match c with
  | .simple s => (env s, [s])
  | .andThen a b =>
    let (codeA, ranA) := execShell a env
    if codeA = 0 then
      let (codeB, ranB) := execShell b env
      (codeB, ranA ++ ranB)
    else
      (codeA, ranA)

/-- The shell parse of `create_command`: its one top-level `&&` joining
the infra-create and iam-create simple commands (the interpolated
values are assumed free of shell metacharacters). -/
def create_shell_cmd (cfg : Config) (answers : CreateAnswers)
    (infra_id infra_out iam_out : String) : ShellCmd :=
  .andThen (.simple (infra_create_command cfg answers infra_id infra_out))
    (.simple (iam_create_command cfg answers infra_id infra_out iam_out))

/-! ## infra.py: create_infra and destroy_infra -/

/-- Outcome of `create_infra`: the prompt was cancelled (message printed,
normal return), the directory already existed (message printed, normal
return), or the composed command was executed with the given single
exit code. -/
inductive CreateOutcome where
  | cancelled
  | alreadyExists
  | ran (command : String) (exitCode : Nat)
  deriving Repr, DecidableEq

/-- The function `infra.create_infra` (infra.py lines 41-109), with the prompt
result, the random suffix (`generate_random_string()`) and the shell
environment passed in.  On cancellation or an existing directory it
returns with the filesystem untouched; otherwise it creates the
directory, writes the `name` and `infra_id` files, and executes the
combined create command through the shell, observing one exit code. -/
def create_infra (cfg : Config) (fs : FS) (pr : PromptResult CreateAnswers)
    (suffix : String) (shellEnv : String → Nat) : CreateOutcome × FS :=
  match pr with
  | .cancelled => (.cancelled, fs)
  | .answered answers =>
    let infra_path := pathJoin cfg.infra_dir answers.name
    if fs.pathExists infra_path then
      (.alreadyExists, fs)
    else
      let infra_id := answers.name ++ "-" ++ suffix
      let infra_out := pathJoin infra_path "infra.json"
      let iam_out := pathJoin infra_path "iam.json"
      let fs := fs.mkdir infra_path
      let fs := fs.write (pathJoin infra_path "name") answers.name
      let fs := fs.write (pathJoin infra_path "infra_id") infra_id
      let command := create_command cfg answers infra_id infra_out iam_out
      let exitCode := (execShell (create_shell_cmd cfg answers infra_id infra_out iam_out) shellEnv).1
      (.ran command exitCode, fs)

/-- What a call to the post-prompt part of `destroy_infra` did: the
destroy commands it executed, and whether `shutil.rmtree` removed the
infrastructure directory. -/
structure DestroyResult where
  execs : List String
  removedDir : Bool
  deriving Repr, DecidableEq

/-- The post-prompt part of `infra.destroy_infra`
(infra.py lines 127-163).  `infraJson`/`iamJson` are the parsed contents
of `infra.json`/`iam.json` when those files exist.  Each present file
leads to one destroy command; a non-zero exit flips the shared `success`
flag; the directory is removed only when `success` survives. -/
def destroy_infra (cfg : Config) (infraJson : Option InfraData)
    (iamJson : Option IamData) (shellEnv : String → Nat) : DestroyResult :=
  let (execs1, success1) :=
    match infraJson with
    | some data =>
      let command := destroy_infra_command cfg data
      ([command], shellEnv command == 0)
    | none => ([], true)
  let (execs2, success2) :=
    match iamJson with
    | some data =>
      let command := destroy_iam_command cfg data
      ([command], shellEnv command == 0)
    | none => ([], true)
  { execs := execs1 ++ execs2, removedDir := success1 && success2 }

/-! ## Process exit status of the infra tool flows -/

/-- Exit status of a process whose flow is modelled as `Except Nat α`:
an `error k` is a `sys.exit(k)`; a normal return falls back to `main`,
which returns, and the interpreter exits 0. -/
def processExit {α : Type} : Except Nat α → Nat
  | .error k => k
  | .ok _ => 0

/-- The `infra.py create` flow from `main` (infra.py lines 165-189):
`ensure_config_exists_or_exit` exits 1 when the configuration is
missing; otherwise `create_infra` runs and — whatever its outcome,
cancellation included — returns normally. -/
def infra_create_flow (configExists : Bool) (cfg : Config) (fs : FS)
    (pr : PromptResult CreateAnswers) (suffix : String)
    (shellEnv : String → Nat) : Except Nat (CreateOutcome × FS) :=
  if configExists then
    .ok (create_infra cfg fs pr suffix shellEnv)
  else
    .error 1

/-- Outcome of the full `destroy_infra` flow. -/
inductive DestroyFlowOutcome where
  | noInfra
  | cancelled
  | done (r : DestroyResult)
  deriving Repr, DecidableEq

/-- The `infra.py destroy` flow from `main` (infra.py lines 165-191 and
111-163): missing configuration exits 1; an empty infrastructure list
returns; a cancelled selection prompt prints "Operation cancelled." and
returns; otherwise the destroy steps run.  In every non-exit case the
flow returns normally to `main`. -/
def infra_destroy_flow (configExists : Bool) (cfg : Config)
    (infraList : List String) (pr : PromptResult String)
    (infraJson : Option InfraData) (iamJson : Option IamData)
    (shellEnv : String → Nat) : Except Nat DestroyFlowOutcome :=
  if configExists then
    if infraList.isEmpty then
      .ok .noInfra
    else
      match pr with
      | .cancelled => .ok .cancelled
      | .answered _ => .ok (.done (destroy_infra cfg infraJson iamJson shellEnv))
  else
    .error 1

/-! ## Sample data for concrete evaluations -/

/-- A representative configuration with an external DNS domain left
unconfigured and the local-CPO settings configured. -/
def sampleConfig : Config where
  infra_dir := "/home/user/infras"
  hypershift_path := some "/usr/local/bin/hypershift"
  aws_creds_path := "/home/user/.aws/credentials"
  pull_secret_path := "/home/user/pull-secret.json"
  oidc_s3_bucket_name := "oidc-bucket"
  oidc_s3_region := "us-east-1"
  external_dns_domain := ""
  hypershift_repo_dir := "/home/user/hypershift"
  local_cpo_image_pfx := "quay.io/user/hypershift"

/-- The sample configuration with an external DNS domain configured. -/
def sampleConfigDns : Config :=
  { sampleConfig with external_dns_domain := "dns.example.com" }

/-- A representative parsed `infra.json`. -/
def sampleInfraData : InfraData where
  infraID := "mycluster-ab12cd"
  Name := "mycluster"
  region := "us-east-1"
  baseDomain := "example.com"

/-- A representative parsed `iam.json`. -/
def sampleIamData : IamData where
  infraID := "mycluster-ab12cd"
  region := "us-east-1"

/-- Representative answers to the `create_infra` prompt. -/
def sampleAnswers : CreateAnswers where
  name := "mycluster"
  region := "us-east-1"
  base_domain := "example.com"
  external_connectivity := .NATGateway

/-- An empty filesystem. -/
def emptyFS : FS where
  dirs := []
  files := []

/-- A shell environment in which every command exits 0. -/
def zeroEnv : String → Nat := fun _ => 0

/-! ## Theorems -/

/-- C1: the claim states that a render with access mode `Public`
composes the cluster-render command successfully with no
external-DNS-domain flag.  On the code this is false: for `Public` no
branch of cluster.py lines 203-207 assigns `custom_domain_flag`, and
evaluating the command f-string at line 238 raises `UnboundLocalError`,
so with `infra.json` present the render crashes before any command is
built; the `Private` and `PublicAndPrivate` modes do build the
command. -/
theorem render_public_unbound_local :
    (render_cluster_yaml sampleConfig (some sampleInfraData) false none
      "mycluster" "quay.io/release:4.19" "Public" "SingleReplica" "SingleReplica"
      "v2" false "2" "m6i.xlarge").outcome = RenderOutcome.unboundLocalError
    ∧ (render_cluster_yaml sampleConfig (some sampleInfraData) false none
      "mycluster" "quay.io/release:4.19" "Private" "SingleReplica" "SingleReplica"
      "v2" false "2" "m6i.xlarge").wroteClusterYaml = true
    ∧ customDomainFlag sampleConfigDns "PublicAndPrivate"
      = some "--external-dns-domain dns.example.com"
    ∧ customDomainFlag sampleConfig "Private" = some "" := by
  refine ⟨rfl, rfl, rfl, rfl⟩

/-- C3: the claim states that on Linux with `XDG_CONFIG_HOME` set (and
no legacy directory) the resolved configuration directory is
`<XDG_CONFIG_HOME>/infra`.  On the code this is false:
config.py line 47 uses the variable value itself, with no `infra`
component appended (unlike the systemd-path and Windows branches), so
the resolved directory is the bare `XDG_CONFIG_HOME` value. -/
theorem os_config_dir_xdg_no_infra_component :
    os_config_dir
      { homeDir := "/home/user", legacyExists := false, platformSys := "Linux",
        xdgConfigHome := some "/home/user/.config", systemdPathLocation := none,
        systemdUserConfigDir := "", appData := none }
      = ConfigDirResult.dir "/home/user/.config"
    ∧ os_config_dir
      { homeDir := "/home/user", legacyExists := false, platformSys := "Linux",
        xdgConfigHome := some "/home/user/.config", systemdPathLocation := none,
        systemdUserConfigDir := "", appData := none }
      ≠ ConfigDirResult.dir (pathJoin "/home/user/.config" "infra") := by
  refine ⟨rfl, ?_⟩
  decide

/-- C4 counterexample: when the latest-release response is valid JSON
that lacks the `pullSpec` field, the resolver does not terminate the
process; it returns the `data.get` default, a placeholder error
string. -/
theorem release_image_missing_pullspec_no_exit :
    get_release_image_ci_nightly "4.19" "ci" (.jsonOk none)
      = Except.ok "Error: No release image found for 4.19 ci" := by
  rfl

/-- C4 amended: for the `ci` and `nightly` channels, resolution returns
the pull-spec field on success and terminates the process with status 1
when the request errors or the response body is malformed
(undecodable); when the response is valid JSON without the pull-spec
field, it instead returns a placeholder error string and does not
terminate. -/
theorem release_image_ci_nightly_resolution :
    ∀ (major_version version_type pullSpec : String),
      get_release_image_ci_nightly major_version version_type .failure = Except.error 1
      ∧ get_release_image_ci_nightly major_version version_type (.jsonOk (some pullSpec))
          = Except.ok pullSpec
      ∧ get_release_image_ci_nightly major_version version_type (.jsonOk none)
          = Except.ok ("Error: No release image found for "
              ++ major_version ++ " " ++ version_type) := by
  intro major_version version_type pullSpec
  exact ⟨rfl, rfl, rfl⟩

/-- Every subprocess recorded by the `cpo_image_flag` computation is
the git rev-parse helper. -/
theorem cpoImageFlag_execs_are_git (cfg : Config) (local_cpo repoIsDir : Bool)
    (gitResult : Option String) :
    ∀ e ∈ (cpoImageFlag cfg local_cpo repoIsDir gitResult).2, ∃ d, e = Exec.git d := by
  intro e he
  by_cases h1 : local_cpo = true
  · by_cases h2 : cfg.hypershift_repo_dir ≠ "" ∧ cfg.local_cpo_image_pfx ≠ "" ∧ repoIsDir = true
    · cases gitResult with
      | none =>
        simp [cpoImageFlag, h1, h2] at he
        exact ⟨_, he⟩
      | some sh =>
        by_cases h3 : sh = ""
        · simp [cpoImageFlag, h1, h2, h3] at he
          exact ⟨_, he⟩
        · simp [cpoImageFlag, h1, h2, h3] at he
          exact ⟨_, he⟩
    · simp [cpoImageFlag, h1, h2] at he
  · simp [cpoImageFlag, h1] at he

/-- C5 counterexample: rendering an infrastructure that lacks
`infra.json`, with the use-local-control-plane-operator option selected
and the local repo configured, does perform an external call: the git
rev-parse subprocess runs (cluster.py lines 182-197) before the
`infra.json` check at line 214. -/
theorem render_missing_artifact_runs_git :
    (render_cluster_yaml sampleConfig none true (some "abcdef123")
      "mycluster" "quay.io/release:4.19" "Public" "SingleReplica" "SingleReplica"
      "v1" true "2" "m6i.xlarge").outcome = RenderOutcome.missingArtifact
    ∧ (render_cluster_yaml sampleConfig none true (some "abcdef123")
      "mycluster" "quay.io/release:4.19" "Public" "SingleReplica" "SingleReplica"
      "v1" true "2" "m6i.xlarge").execs = [Exec.git "/home/user/hypershift"]
    ∧ (render_cluster_yaml sampleConfig none true (some "abcdef123")
      "mycluster" "quay.io/release:4.19" "Public" "SingleReplica" "SingleReplica"
      "v1" true "2" "m6i.xlarge").execs ≠ [] := by
  refine ⟨rfl, rfl, ?_⟩
  decide

/-- C5 amended: for every infrastructure lacking `infra.json`, render
reports the missing artifact, does not write `cluster.yaml`, and
executes no shell command — in particular no render command — for every
combination of the other arguments; however, when the
use-local-control-plane-operator option is selected with the local repo
configured, the git rev-parse subprocess runs before the artifact
check. -/
theorem render_missing_artifact_no_shell :
    ∀ (cfg : Config) (repoIsDir : Bool) (gitResult : Option String)
      (infra release_image access_mode control_plane infrastructure cp_version : String)
      (local_cpo : Bool) (node_count instance_type : String),
      (render_cluster_yaml cfg none repoIsDir gitResult infra release_image
        access_mode control_plane infrastructure cp_version local_cpo
        node_count instance_type).outcome = RenderOutcome.missingArtifact
      ∧ (render_cluster_yaml cfg none repoIsDir gitResult infra release_image
        access_mode control_plane infrastructure cp_version local_cpo
        node_count instance_type).wroteClusterYaml = false
      ∧ ∀ e ∈ (render_cluster_yaml cfg none repoIsDir gitResult infra release_image
          access_mode control_plane infrastructure cp_version local_cpo
          node_count instance_type).execs, ∃ d, e = Exec.git d := by
  intro cfg repoIsDir gitResult infra release_image access_mode control_plane
    infrastructure cp_version local_cpo node_count instance_type
  refine ⟨rfl, rfl, ?_⟩
  intro e he
  exact cpoImageFlag_execs_are_git cfg local_cpo repoIsDir gitResult e he

/-- C6: the destroy operation removes the infrastructure directory if
and only if every destroy command it issued for a present artifact file
exited zero; with neither `infra.json` nor `iam.json` present the
directory is removed with no external command issued. -/
theorem destroy_removes_dir_iff_all_succeed :
    ∀ (cfg : Config) (infraJson : Option InfraData) (iamJson : Option IamData)
      (shellEnv : String → Nat),
      ((destroy_infra cfg infraJson iamJson shellEnv).removedDir = true
        ↔ ∀ c ∈ (destroy_infra cfg infraJson iamJson shellEnv).execs, shellEnv c = 0)
      ∧ destroy_infra cfg none none shellEnv = { execs := [], removedDir := true } := by
  intro cfg ij mj env
  refine ⟨?_, rfl⟩
  cases ij <;> cases mj <;>
    simp [destroy_infra, List.forall_mem_cons]

/-- C2 counterexample: cancelling the infra tool create prompt or the
destroy selection prompt does not exit non-zero: `create_infra` and
`destroy_infra` call `inquirer.prompt` directly (not
`utils.safe_prompt`), print "Operation cancelled." and return normally
(infra.py lines 51-54 and 121-125), after which `main` returns and the
process exits with status 0. -/
theorem infra_prompt_cancel_exits_zero :
    processExit (infra_create_flow true sampleConfig emptyFS .cancelled "ab12cd" zeroEnv) = 0
    ∧ processExit (infra_destroy_flow true sampleConfig ["mycluster"] .cancelled
        (some sampleInfraData) (some sampleIamData) zeroEnv) = 0 := by
  exact ⟨rfl, rfl⟩

/-- C2 amended: prompts that go through `utils.safe_prompt` (all
cluster-tool and configuration prompts) terminate the process with exit
status 1 when cancelled; the infra tool create and destroy prompts call
`inquirer.prompt` directly and handle cancellation by printing a
message and returning normally, so there the process exits with
status 0. -/
theorem prompt_cancellation_exit_codes :
    ∀ (α : Type) (cfg : Config) (fs : FS) (suffix : String)
      (shellEnv : String → Nat) (infraList : List String)
      (infraJson : Option InfraData) (iamJson : Option IamData),
      processExit (safe_prompt (PromptResult.cancelled : PromptResult α)) = 1
      ∧ processExit (infra_create_flow true cfg fs .cancelled suffix shellEnv) = 0
      ∧ processExit (infra_destroy_flow true cfg infraList .cancelled
          infraJson iamJson shellEnv) = 0 := by
  intro α cfg fs suffix shellEnv infraList infraJson iamJson
  refine ⟨rfl, rfl, ?_⟩
  cases infraList <;> rfl

/-- C7: creating an infrastructure whose directory already exists fails
with the already-exists report and changes no on-disk state; after a
first successful create, a second create with the same name fails the
same way, leaves the filesystem as the first create left it, and in
particular the `infra_id` file still holds the first create's
contents. -/
theorem create_already_exists_no_state_change :
    ∀ (cfg : Config) (fs : FS) (answers : CreateAnswers) (s1 s2 : String)
      (e1 e2 : String → Nat),
      (fs.pathExists (pathJoin cfg.infra_dir answers.name) = true →
        create_infra cfg fs (.answered answers) s1 e1 = (.alreadyExists, fs))
      ∧ (fs.pathExists (pathJoin cfg.infra_dir answers.name) = false →
        create_infra cfg ((create_infra cfg fs (.answered answers) s1 e1).2)
            (.answered answers) s2 e2
          = (.alreadyExists, (create_infra cfg fs (.answered answers) s1 e1).2)
        ∧ (create_infra cfg fs (.answered answers) s1 e1).2.read
            (pathJoin (pathJoin cfg.infra_dir answers.name) "infra_id")
          = some (answers.name ++ "-" ++ s1)) := by
  intro cfg fs answers s1 s2 e1 e2
  constructor
  · intro h
    simp [create_infra, h]
  · intro h
    constructor
    · simp only [create_infra, h]
      simp [FS.pathExists, FS.mkdir, FS.write]
    · simp only [create_infra, h]
      simp [FS.read, FS.mkdir, FS.write]

/-- Witness for the already-exists theorem at concrete inputs: a
filesystem already holding the directory, and a first create on an
empty filesystem followed by a second create with the same name. -/
theorem create_already_exists_no_state_change_witness :
    create_infra sampleConfig { dirs := ["/home/user/infras/mycluster"], files := [] }
        (.answered sampleAnswers) "ab12cd" zeroEnv
      = (.alreadyExists, { dirs := ["/home/user/infras/mycluster"], files := [] })
    ∧ create_infra sampleConfig
        ((create_infra sampleConfig emptyFS (.answered sampleAnswers) "ab12cd" zeroEnv).2)
        (.answered sampleAnswers) "xy34zw" zeroEnv
      = (.alreadyExists,
         (create_infra sampleConfig emptyFS (.answered sampleAnswers) "ab12cd" zeroEnv).2)
    ∧ (create_infra sampleConfig emptyFS (.answered sampleAnswers) "ab12cd" zeroEnv).2.read
        (pathJoin (pathJoin sampleConfig.infra_dir sampleAnswers.name) "infra_id")
      = some (sampleAnswers.name ++ "-" ++ "ab12cd") := by
  refine ⟨(create_already_exists_no_state_change sampleConfig
      { dirs := ["/home/user/infras/mycluster"], files := [] }
      sampleAnswers "ab12cd" "ab12cd" zeroEnv zeroEnv).1 (by decide),
    ((create_already_exists_no_state_change sampleConfig emptyFS
      sampleAnswers "ab12cd" "xy34zw" zeroEnv zeroEnv).2 (by decide)).1,
    ((create_already_exists_no_state_change sampleConfig emptyFS
      sampleAnswers "ab12cd" "xy34zw" zeroEnv zeroEnv).2 (by decide)).2⟩

/-- The three connectivity flags the `connectivity_flag_mapping` dict
can produce. -/
def connFlags : List String :=
  ["--public-only", "--enable-proxy", "--enable-secure-proxy"]

/-- C8: for each of the four connectivity choices, the composed
infra-create command contains exactly the corresponding flag —
`--public-only` for Public, `--enable-proxy` for Proxy,
`--enable-secure-proxy` for SecureProxy, none of the three for NAT
gateway — and no other flag from that set, provided the interpolated
values are not themselves one of those flags. -/
theorem infra_create_connectivity_flag_exact :
    ∀ (cfg : Config) (answers : CreateAnswers) (infra_id infra_out : String),
      cfg.hypershiftCmd ∉ connFlags →
      cfg.aws_creds_path ∉ connFlags →
      answers.base_domain ∉ connFlags →
      infra_id ∉ connFlags →
      answers.name ∉ connFlags →
      answers.region ∉ connFlags →
      infra_out ∉ connFlags →
      (("--public-only" ∈ infra_create_words cfg
          { answers with external_connectivity := .Public } infra_id infra_out
        ∧ "--enable-proxy" ∉ infra_create_words cfg
          { answers with external_connectivity := .Public } infra_id infra_out
        ∧ "--enable-secure-proxy" ∉ infra_create_words cfg
          { answers with external_connectivity := .Public } infra_id infra_out)
      ∧ ("--enable-proxy" ∈ infra_create_words cfg
          { answers with external_connectivity := .Proxy } infra_id infra_out
        ∧ "--public-only" ∉ infra_create_words cfg
          { answers with external_connectivity := .Proxy } infra_id infra_out
        ∧ "--enable-secure-proxy" ∉ infra_create_words cfg
          { answers with external_connectivity := .Proxy } infra_id infra_out)
      ∧ ("--enable-secure-proxy" ∈ infra_create_words cfg
          { answers with external_connectivity := .SecureProxy } infra_id infra_out
        ∧ "--public-only" ∉ infra_create_words cfg
          { answers with external_connectivity := .SecureProxy } infra_id infra_out
        ∧ "--enable-proxy" ∉ infra_create_words cfg
          { answers with external_connectivity := .SecureProxy } infra_id infra_out)
      ∧ ("--public-only" ∉ infra_create_words cfg
          { answers with external_connectivity := .NATGateway } infra_id infra_out
        ∧ "--enable-proxy" ∉ infra_create_words cfg
          { answers with external_connectivity := .NATGateway } infra_id infra_out
        ∧ "--enable-secure-proxy" ∉ infra_create_words cfg
          { answers with external_connectivity := .NATGateway } infra_id infra_out)) := by
  intro cfg answers infra_id infra_out h1 h2 h3 h4 h5 h6 h7
  simp only [connFlags, List.mem_cons, List.not_mem_nil, or_false, not_or] at h1 h2 h3 h4 h5 h6 h7
  obtain ⟨h1a, h1b, h1c⟩ := h1
  obtain ⟨h2a, h2b, h2c⟩ := h2
  obtain ⟨h3a, h3b, h3c⟩ := h3
  obtain ⟨h4a, h4b, h4c⟩ := h4
  obtain ⟨h5a, h5b, h5c⟩ := h5
  obtain ⟨h6a, h6b, h6c⟩ := h6
  obtain ⟨h7a, h7b, h7c⟩ := h7
  refine ⟨⟨?_, ?_, ?_⟩, ⟨?_, ?_, ?_⟩, ⟨?_, ?_, ?_⟩, ⟨?_, ?_, ?_⟩⟩ <;>
    simp [infra_create_words, connectivity_flag_mapping,
      Ne.symm h1a, Ne.symm h1b, Ne.symm h1c, Ne.symm h2a, Ne.symm h2b, Ne.symm h2c,
      Ne.symm h3a, Ne.symm h3b, Ne.symm h3c, Ne.symm h4a, Ne.symm h4b, Ne.symm h4c,
      Ne.symm h5a, Ne.symm h5b, Ne.symm h5c, Ne.symm h6a, Ne.symm h6b, Ne.symm h6c,
      Ne.symm h7a, Ne.symm h7b, Ne.symm h7c]

/-- Witness for the connectivity-flag theorem at a concrete
configuration, projecting the Public and NAT gateway groups. -/
theorem infra_create_connectivity_flag_exact_witness :
    ("--public-only" ∈ infra_create_words sampleConfig
        { sampleAnswers with external_connectivity := .Public }
        "mycluster-ab12cd" "/home/user/infras/mycluster/infra.json"
      ∧ "--enable-proxy" ∉ infra_create_words sampleConfig
        { sampleAnswers with external_connectivity := .Public }
        "mycluster-ab12cd" "/home/user/infras/mycluster/infra.json"
      ∧ "--enable-secure-proxy" ∉ infra_create_words sampleConfig
        { sampleAnswers with external_connectivity := .Public }
        "mycluster-ab12cd" "/home/user/infras/mycluster/infra.json")
    ∧ ("--public-only" ∉ infra_create_words sampleConfig
        { sampleAnswers with external_connectivity := .NATGateway }
        "mycluster-ab12cd" "/home/user/infras/mycluster/infra.json"
      ∧ "--enable-proxy" ∉ infra_create_words sampleConfig
        { sampleAnswers with external_connectivity := .NATGateway }
        "mycluster-ab12cd" "/home/user/infras/mycluster/infra.json"
      ∧ "--enable-secure-proxy" ∉ infra_create_words sampleConfig
        { sampleAnswers with external_connectivity := .NATGateway }
        "mycluster-ab12cd" "/home/user/infras/mycluster/infra.json") := by
  have h := infra_create_connectivity_flag_exact sampleConfig sampleAnswers
    "mycluster-ab12cd" "/home/user/infras/mycluster/infra.json"
    (by decide) (by decide) (by decide) (by decide) (by decide) (by decide) (by decide)
  exact ⟨h.1, h.2.2.2⟩

/-- C9: the destroy flow composes its infra-destroy and iam-destroy
command lines with the literal program name `hypershift`
(infra.py lines 138 and 153), independent of the configured
`hypershift_path`; the create flow instead uses the configured path,
which defaults to `hypershift` only when the key is absent
(infra.py line 66). -/
theorem destroy_hardcodes_hypershift :
    ∀ (cfg : Config) (p : Option String) (d : InfraData) (m : IamData)
      (answers : CreateAnswers) (infra_id infra_out iam_out : String),
      (∃ rest, destroy_infra_command cfg d = "hypershift " ++ rest)
      ∧ (∃ rest, destroy_iam_command cfg m = "hypershift " ++ rest)
      ∧ destroy_infra_command { cfg with hypershift_path := p } d
          = destroy_infra_command cfg d
      ∧ destroy_iam_command { cfg with hypershift_path := p } m
          = destroy_iam_command cfg m
      ∧ (∃ rest, create_command cfg answers infra_id infra_out iam_out
          = cfg.hypershiftCmd ++ rest)
      ∧ Config.hypershiftCmd { cfg with hypershift_path := none } = "hypershift" := by
  intro cfg p d m answers infra_id infra_out iam_out
  refine ⟨⟨"destroy infra aws --infra-id=" ++ d.infraID ++ " --name=" ++ d.Name
      ++ " --region=" ++ d.region ++ " " ++ "    --aws-creds " ++ cfg.aws_creds_path
      ++ " " ++ "    --base-domain=" ++ d.baseDomain, ?_⟩,
    ⟨"destroy iam aws --infra-id=" ++ m.infraID ++ " --aws-creds "
      ++ cfg.aws_creds_path ++ " --region=" ++ m.region, ?_⟩,
    rfl, rfl, ?_, rfl⟩
  · simp only [destroy_infra_command, ← String.append_assoc]
    rfl
  · simp only [destroy_iam_command, ← String.append_assoc]
    rfl
  · exact ⟨_, by simp only [create_command, infra_create_command, String.append_assoc]; rfl⟩

/-- A shell environment in which exactly the command `c` fails (exit
code 1) and every other command exits 0. -/
def failOnlyEnv (c : String) : String → Nat :=
  fun s => if s = c then 1 else 0

/-- A shell environment in which exactly the command `c` exits 0 and
every other command fails with exit code 1. -/
def failExceptEnv (c : String) : String → Nat :=
  fun s => if s = c then 0 else 1

/-- C10: the infra-creation and IAM-creation steps of create are issued
as one shell command — the composed string is the infra-create command,
a single `&&`, and the iam-create command — so under shell semantics
the IAM step runs exactly when the infra step exits zero, and create
observes one combined exit status for both steps: an execution in which
the infra step fails and one in which only the IAM step fails are
indistinguishable by that status. -/
theorem create_single_and_chained_command :
    ∀ (cfg : Config) (answers : CreateAnswers) (fs : FS) (suffix : String)
      (infra_id infra_out iam_out : String) (shellEnv : String → Nat),
      create_command cfg answers infra_id infra_out iam_out
        = infra_create_command cfg answers infra_id infra_out ++ " &&   "
          ++ iam_create_command cfg answers infra_id infra_out iam_out
      ∧ execShell (create_shell_cmd cfg answers infra_id infra_out iam_out) shellEnv
          = (if shellEnv (infra_create_command cfg answers infra_id infra_out) = 0
             then (shellEnv (iam_create_command cfg answers infra_id infra_out iam_out),
                   [infra_create_command cfg answers infra_id infra_out,
                    iam_create_command cfg answers infra_id infra_out iam_out])
             else (shellEnv (infra_create_command cfg answers infra_id infra_out),
                   [infra_create_command cfg answers infra_id infra_out]))
      ∧ (infra_create_command cfg answers infra_id infra_out
           ≠ iam_create_command cfg answers infra_id infra_out iam_out →
         (execShell (create_shell_cmd cfg answers infra_id infra_out iam_out)
            (failOnlyEnv (infra_create_command cfg answers infra_id infra_out))).1
         = (execShell (create_shell_cmd cfg answers infra_id infra_out iam_out)
            (failExceptEnv (infra_create_command cfg answers infra_id infra_out))).1)
      ∧ (fs.pathExists (pathJoin cfg.infra_dir answers.name) = false →
          (create_infra cfg fs (.answered answers) suffix shellEnv).1
            = CreateOutcome.ran
                (create_command cfg answers (answers.name ++ "-" ++ suffix)
                  (pathJoin (pathJoin cfg.infra_dir answers.name) "infra.json")
                  (pathJoin (pathJoin cfg.infra_dir answers.name) "iam.json"))
                (execShell
                  (create_shell_cmd cfg answers (answers.name ++ "-" ++ suffix)
                    (pathJoin (pathJoin cfg.infra_dir answers.name) "infra.json")
                    (pathJoin (pathJoin cfg.infra_dir answers.name) "iam.json"))
                  shellEnv).1) := by
  intro cfg answers fs suffix infra_id infra_out iam_out shellEnv
  refine ⟨rfl, ?_, ?_, ?_⟩
  · simp only [execShell, create_shell_cmd]
    split <;> rfl
  · intro hne
    simp [execShell, create_shell_cmd, failOnlyEnv, failExceptEnv, Ne.symm hne]
  · intro h
    simp [create_infra, h]

/-- Witness for the chained-command theorem at concrete inputs,
projecting the indistinguishability and create-invocation conjuncts. -/
theorem create_single_and_chained_command_witness :
    (execShell (create_shell_cmd sampleConfig sampleAnswers "mycluster-ab12cd"
        "/home/user/infras/mycluster/infra.json" "/home/user/infras/mycluster/iam.json")
      (failOnlyEnv (infra_create_command sampleConfig sampleAnswers "mycluster-ab12cd"
        "/home/user/infras/mycluster/infra.json"))).1
    = (execShell (create_shell_cmd sampleConfig sampleAnswers "mycluster-ab12cd"
        "/home/user/infras/mycluster/infra.json" "/home/user/infras/mycluster/iam.json")
      (failExceptEnv (infra_create_command sampleConfig sampleAnswers "mycluster-ab12cd"
        "/home/user/infras/mycluster/infra.json"))).1
    ∧ (create_infra sampleConfig emptyFS (.answered sampleAnswers) "ab12cd" zeroEnv).1
      = CreateOutcome.ran
          (create_command sampleConfig sampleAnswers (sampleAnswers.name ++ "-" ++ "ab12cd")
            (pathJoin (pathJoin sampleConfig.infra_dir sampleAnswers.name) "infra.json")
            (pathJoin (pathJoin sampleConfig.infra_dir sampleAnswers.name) "iam.json"))
          (execShell
            (create_shell_cmd sampleConfig sampleAnswers (sampleAnswers.name ++ "-" ++ "ab12cd")
              (pathJoin (pathJoin sampleConfig.infra_dir sampleAnswers.name) "infra.json")
              (pathJoin (pathJoin sampleConfig.infra_dir sampleAnswers.name) "iam.json"))
            zeroEnv).1 := by
  have h := create_single_and_chained_command sampleConfig sampleAnswers emptyFS "ab12cd"
    "mycluster-ab12cd" "/home/user/infras/mycluster/infra.json"
    "/home/user/infras/mycluster/iam.json" zeroEnv
  exact ⟨h.2.2.1 (by decide), h.2.2.2 (by decide)⟩

/-- Witness for the prompt-cancellation theorem at concrete inputs. -/
theorem prompt_cancellation_exit_codes_witness :
    processExit (safe_prompt (PromptResult.cancelled : PromptResult Unit)) = 1
    ∧ processExit (infra_create_flow true sampleConfig emptyFS .cancelled "ab12cd" zeroEnv) = 0
    ∧ processExit (infra_destroy_flow true sampleConfig ["mycluster"] .cancelled
        (some sampleInfraData) (some sampleIamData) zeroEnv) = 0 :=
  prompt_cancellation_exit_codes Unit sampleConfig emptyFS "ab12cd" zeroEnv
    ["mycluster"] (some sampleInfraData) (some sampleIamData)

/-- Witness for the release-image resolution theorem at concrete
inputs. -/
theorem release_image_ci_nightly_resolution_witness :
    get_release_image_ci_nightly "4.19" "nightly" .failure = Except.error 1
    ∧ get_release_image_ci_nightly "4.19" "nightly" (.jsonOk (some "quay.io/release:4.19-nightly"))
        = Except.ok "quay.io/release:4.19-nightly"
    ∧ get_release_image_ci_nightly "4.19" "nightly" (.jsonOk none)
        = Except.ok ("Error: No release image found for " ++ "4.19" ++ " " ++ "nightly") :=
  release_image_ci_nightly_resolution "4.19" "nightly" "quay.io/release:4.19-nightly"

/-- Witness for the missing-artifact render theorem at concrete
inputs. -/
theorem render_missing_artifact_no_shell_witness :
    (render_cluster_yaml sampleConfig none false none
      "mycluster" "quay.io/release:4.19" "Public" "SingleReplica" "SingleReplica"
      "v1" false "2" "m6i.xlarge").outcome = RenderOutcome.missingArtifact
    ∧ (render_cluster_yaml sampleConfig none false none
      "mycluster" "quay.io/release:4.19" "Public" "SingleReplica" "SingleReplica"
      "v1" false "2" "m6i.xlarge").wroteClusterYaml = false :=
  ⟨(render_missing_artifact_no_shell sampleConfig false none
      "mycluster" "quay.io/release:4.19" "Public" "SingleReplica" "SingleReplica"
      "v1" false "2" "m6i.xlarge").1,
   (render_missing_artifact_no_shell sampleConfig false none
      "mycluster" "quay.io/release:4.19" "Public" "SingleReplica" "SingleReplica"
      "v1" false "2" "m6i.xlarge").2.1⟩

/-- Witness for the destroy theorem at concrete inputs: with neither
artifact file present the directory is removed and nothing is
executed. -/
theorem destroy_removes_dir_iff_all_succeed_witness :
    destroy_infra sampleConfig none none zeroEnv = { execs := [], removedDir := true } :=
  (destroy_removes_dir_iff_all_succeed sampleConfig none none zeroEnv).2

/-- Witness for the hardcoded-hypershift theorem at concrete inputs,
projecting the configuration-independence and default conjuncts. -/
theorem destroy_hardcodes_hypershift_witness :
    destroy_infra_command { sampleConfig with hypershift_path := some "/opt/hypershift" }
        sampleInfraData
      = destroy_infra_command sampleConfig sampleInfraData
    ∧ destroy_iam_command { sampleConfig with hypershift_path := some "/opt/hypershift" }
        sampleIamData
      = destroy_iam_command sampleConfig sampleIamData
    ∧ Config.hypershiftCmd { sampleConfig with hypershift_path := none } = "hypershift" :=
  ⟨(destroy_hardcodes_hypershift sampleConfig (some "/opt/hypershift") sampleInfraData
      sampleIamData sampleAnswers "mycluster-ab12cd" "/i.json" "/m.json").2.2.1,
   (destroy_hardcodes_hypershift sampleConfig (some "/opt/hypershift") sampleInfraData
      sampleIamData sampleAnswers "mycluster-ab12cd" "/i.json" "/m.json").2.2.2.1,
   (destroy_hardcodes_hypershift sampleConfig (some "/opt/hypershift") sampleInfraData
      sampleIamData sampleAnswers "mycluster-ab12cd" "/i.json" "/m.json").2.2.2.2.2⟩

end Infra
